import Mathlib

/-!
Shallow embedding of the DeepScribe story server (server.js): the credential
codec (hashPassword / verifyPassword), the access-gated story routes
(getStory, verifyStoryPassword, setStoryPassword, removeStoryPassword,
createStory, getStories) and the chapter-continuation pipeline
(continueStory), with proofs of the specified properties.

The external PBKDF2 key-derivation function (crypto.pbkdf2Sync with the fixed
parameters 10000 rounds, 64 byte sha512 output, hex encoding) is modelled as
an abstract parameter kdf : String -> String -> String mapping a password and
a salt to the derived hex digest.  The fresh random salt produced by
crypto.randomBytes(16).toString with hex encoding is passed explicitly.
SQLite timestamps are modelled as Nat.  The text-generation collaborator is
modelled by its reply: an Except Unit String input to the pipeline (error for
a transport / quota / malformed-response failure, ok for returned text).
-/

namespace DeepScribe

/-- JavaScript String.prototype.split with a single-character separator, on
the character list of the string.  Splitting the empty string yields one
empty field, as in JavaScript. -/
def jsSplitList (sep : Char) : List Char → List (List Char)
  | [] => [[]]
  | c :: rest =>
    match jsSplitList sep rest with
    | [] => [[c]]
    | h :: t => if c = sep then [] :: h :: t else (c :: h) :: t

/-- hashPassword from server.js: derives a key from the password and a fresh
random salt and returns the single string salt ++ ":" ++ derivedKeyHex.  The
salt argument models the fresh random salt. -/
def hashPassword (kdf : String → String → String) (salt password : String) : String :=
  salt ++ ":" ++ kdf password salt

/-- verifyPassword from server.js, with the password exactly as it arrives
from the request body (possibly undefined, modelled as none).  A falsy stored
form returns false before the password is touched; when the stored form is
truthy, crypto.pbkdf2Sync throws a TypeError if the password is undefined,
modelled as Except.error.  A missing second field of the stored form makes
the final comparison hash === verifyHash compare undefined with a string,
which is false. -/
def verifyPasswordE (kdf : String → String → String)
    (password : Option String) (hashedPassword : Option String) : Except Unit Bool :=
  match hashedPassword with
  | none => .ok false
  | some hp =>
    if hp = "" then .ok false
    else
      let parts := jsSplitList ':' hp.data
      let salt := String.mk (parts.headD [])
      match password with
      | none => .error ()
      | some pw =>
        let verifyHash := kdf pw salt
        match parts.get? 1 with
        | some h => .ok (String.mk h == verifyHash)
        | none => .ok false

/-- verifyPassword for a password that is present as a string; total, since
the JS function never throws for string arguments. -/
def verifyPassword (kdf : String → String → String)
    (pw : String) (hashedPassword : Option String) : Bool :=
  match verifyPasswordE kdf (some pw) hashedPassword with
  | .ok b => b
  | .error _ => false

/-- A row of the stories table: id, title, genre, password_hash (nullable),
is_protected (INTEGER 0 or 1, modelled as Bool), timestamps, status. -/
structure Story where
  id : String
  title : String
  genre : String
  password_hash : Option String
  is_protected : Bool
  created_at : Nat
  updated_at : Nat
  status : String
  deriving DecidableEq

/-- A row of the chapters table. -/
structure Chapter where
  id : String
  story_id : String
  chapter_number : Nat
  title : Option String
  content : String
  summary : Option String
  created_at : Nat
  deriving DecidableEq

/-- The derived-database invariant of section 3 of the spec: the protection
flag is set exactly when a credential hash is stored. -/
def storyInv (s : Story) : Prop := s.is_protected = true ↔ s.password_hash.isSome = true

instance (s : Story) : Decidable (storyInv s) :=
  inferInstanceAs (Decidable (s.is_protected = true ↔ s.password_hash.isSome = true))

/-- ORDER BY chapter_number DESC. -/
def chapterGE (a b : Chapter) : Prop := b.chapter_number ≤ a.chapter_number

instance : DecidableRel chapterGE :=
  fun a b => inferInstanceAs (Decidable (b.chapter_number ≤ a.chapter_number))

instance : IsTotal Chapter chapterGE :=
  ⟨fun a b => Nat.le_total b.chapter_number a.chapter_number⟩

instance : IsTrans Chapter chapterGE :=
  ⟨fun _ _ _ hab hbc => Nat.le_trans hbc hab⟩

/-- ORDER BY chapter_number (ascending). -/
def chapterLE (a b : Chapter) : Prop := a.chapter_number ≤ b.chapter_number

instance : DecidableRel chapterLE :=
  fun a b => inferInstanceAs (Decidable (a.chapter_number ≤ b.chapter_number))

instance : IsTotal Chapter chapterLE :=
  ⟨fun a b => Nat.le_total a.chapter_number b.chapter_number⟩

instance : IsTrans Chapter chapterLE :=
  ⟨fun _ _ _ hab hbc => Nat.le_trans hab hbc⟩

/-- SELECT * FROM chapters WHERE story_id = ? ORDER BY chapter_number DESC
LIMIT 3: the three highest-numbered chapters, highest first. -/
def topThree (chs : List Chapter) : List Chapter :=
  (List.insertionSort chapterGE chs).take 3

/-- SELECT * FROM chapters WHERE story_id = ? ORDER BY chapter_number. -/
def chaptersAsc (chs : List Chapter) : List Chapter :=
  List.insertionSort chapterLE chs

/-- The chapter sequencer of continueStory:
chapters.length > 0 ? Math.max(...chapters.map(c => c.chapter_number)) + 1 : 1,
where the argument is the DESC LIMIT 3 query result. -/
def nextChapterNumber (recent : List Chapter) : Nat :=
  match recent.map (fun c => c.chapter_number) with
  | [] => 1
  | n :: ns => ns.foldl max n + 1

/-- content.substring(0, n): the first n characters of a string. -/
def substringTo (s : String) (n : Nat) : String := String.mk (s.data.take n)

/-- One line of the assembled context, from continueStory:
Chapter NUMBER: (summary if truthy, else the first 200 characters of the
content), then the ellipsis marker and a blank line.  A null or empty
summary is falsy in JavaScript, so both fall back to the content. -/
def contextLine (c : Chapter) : String :=
  "Chapter " ++ Nat.repr c.chapter_number ++ ": " ++
    (match c.summary with
      | some s => if s = "" then substringTo c.content 200 else s
      | none => substringTo c.content 200) ++ "...\n\n"

/-- The header of the assembled context, identifying the story. -/
def contextHeader (s : Story) : String :=
  "Story: \"" ++ s.title ++ "\" (" ++ s.genre ++ ")\n\n"

/-- The context assembler of continueStory: the header, then, when the
recent window is non-empty, the marker line and one line per chapter of the
window in reversed (chronological) order.  The recent argument is the DESC
LIMIT 3 query result. -/
def buildContext (story : Story) (recent : List Chapter) : String :=
  contextHeader story ++
    (if recent.isEmpty then ""
     else "Recent chapters:\n" ++ String.join (recent.reverse.map contextLine))

/-- Modelled from the spec: the context-line rendering as the spec words it,
with the ellipsis marker attached only to the truncated-content branch and
any present summary rendered verbatim.  Declared only for comparison with
contextLine, which is translated from the code. -/
def claimedContextLine (c : Chapter) : String :=
  "Chapter " ++ Nat.repr c.chapter_number ++ ": " ++
    (match c.summary with
      | some s => s
      | none => substringTo c.content 200 ++ "...") ++ "\n\n"

/-- The JSON body returned by a successful POST /stories/:id/chapters. -/
structure ChapterResponse where
  id : String
  story_id : String
  chapter_number : Nat
  content : String
  summary : String
  deriving DecidableEq

/-- Outcome of the chapter-continuation route.  generationFailed is the
route's catch-all 500 response Failed to generate chapter, produced when the
content-generation collaborator call throws and also when the password
verification itself throws on an undefined password. -/
inductive ContinueResult where
  | notFound
  | authInvalid
  | generationFailed
  | ok (chapter : ChapterResponse)
  deriving DecidableEq

/-- POST /deepscribe/api/stories/:id/chapters for a story that exists:
verify access when the story is protected, read the three most recent
chapters, generate content (hard failure) and a summary (soft failure,
replaced by the fixed placeholder), then persist the new chapter and advance
the story's updated_at timestamp.  The collaborator replies and the fresh
chapter id and current time are explicit inputs.  Returns the HTTP result
together with the story row and chapter rows after the request. -/
def continueStoryCore (kdf : String → String → String) (story : Story)
    (password : Option String) (prompt : String) (chs : List Chapter)
    (genReply sumReply : Except Unit String) (chapterId : String) (now : Nat) :
    ContinueResult × Story × List Chapter :=
  let proceed : ContinueResult × Story × List Chapter :=
    let recent := topThree chs
    match genReply with
    | .error _ => (.generationFailed, story, chs)
    | .ok content =>
      let summary := match sumReply with
        | .ok s => s
        | .error _ => "Chapter summary unavailable"
      let num := nextChapterNumber recent
      let newChapter : Chapter :=
        { id := chapterId, story_id := story.id, chapter_number := num,
          title := none, content := content, summary := some summary, created_at := now }
      (.ok { id := chapterId, story_id := story.id, chapter_number := num,
             content := content, summary := summary },
       { story with updated_at := now }, chs ++ [newChapter])
  if story.is_protected then
    match verifyPasswordE kdf password story.password_hash with
    | .error _ => (.generationFailed, story, chs)
    | .ok false => (.authInvalid, story, chs)
    | .ok true => proceed
  else proceed

/-- The route including the story lookup: 404 when the id is unknown. -/
def continueStory (kdf : String → String → String) (story : Option Story)
    (password : Option String) (prompt : String) (chs : List Chapter)
    (genReply sumReply : Except Unit String) (chapterId : String) (now : Nat) :
    ContinueResult × Option Story × List Chapter :=
  match story with
  | none => (.notFound, none, chs)
  | some st =>
    let r := continueStoryCore kdf st password prompt chs genReply sumReply chapterId now
    (r.1, some r.2.1, r.2.2)

/-- The story object embedded in the 403 denial of GET /stories/:id: only
id, title, genre, is_protected and the two timestamps. -/
structure StoryMeta where
  id : String
  title : String
  genre : String
  is_protected : Bool
  created_at : Nat
  updated_at : Nat
  deriving DecidableEq

/-- The denial metadata of a story. -/
def metaOf (s : Story) : StoryMeta :=
  { id := s.id, title := s.title, genre := s.genre, is_protected := s.is_protected,
    created_at := s.created_at, updated_at := s.updated_at }

/-- Outcome of GET /deepscribe/api/stories/:id.  The full constructor spreads
the whole story row (password_hash field included, null for an unprotected
story) plus the chapters, exactly as res.json with the spread of story. -/
inductive GetStoryResult where
  | notFound
  | authRequired (story : StoryMeta)
  | full (story : Story) (chapters : List Chapter)
  deriving DecidableEq

/-- GET /deepscribe/api/stories/:id.  The route reads no secret from the
request; the secret parameter records that any candidate secret a caller
supplies is ignored. -/
def getStory (secret : Option String) (story : Option Story) (chs : List Chapter) :
    GetStoryResult :=
  match story with
  | none => .notFound
  | some st =>
    if st.is_protected then .authRequired (metaOf st)
    else .full st (chaptersAsc chs)

/-- The value of the password_hash key of a getStory response body, none
when the key is absent or null. -/
def GetStoryResult.hashField : GetStoryResult → Option String
  | .full s _ => s.password_hash
  | _ => none

/-- A story row with the password_hash destructured away, as in
const password_hash, ...storyData = story, and equally the column list of
the GET /stories listing query. -/
structure StoryPublic where
  id : String
  title : String
  genre : String
  is_protected : Bool
  created_at : Nat
  updated_at : Nat
  status : String
  deriving DecidableEq

/-- Project a story row to its non-credential columns. -/
def publicOf (s : Story) : StoryPublic :=
  { id := s.id, title := s.title, genre := s.genre, is_protected := s.is_protected,
    created_at := s.created_at, updated_at := s.updated_at, status := s.status }

/-- ORDER BY updated_at DESC for the listing route. -/
def storyGE (a b : Story) : Prop := b.updated_at ≤ a.updated_at

instance : DecidableRel storyGE :=
  fun a b => inferInstanceAs (Decidable (b.updated_at ≤ a.updated_at))

instance : IsTotal Story storyGE := ⟨fun a b => Nat.le_total b.updated_at a.updated_at⟩

instance : IsTrans Story storyGE := ⟨fun _ _ _ hab hbc => Nat.le_trans hbc hab⟩

/-- GET /deepscribe/api/stories: the non-credential columns of every story,
most recently updated first. -/
def getStories (l : List Story) : List StoryPublic :=
  (List.insertionSort storyGE l).map publicOf

/-- Outcome of POST /deepscribe/api/stories/:id/verify. -/
inductive VerifyResult where
  | passwordRequired
  | notFound
  | invalidPassword
  | ok (story : StoryPublic) (chapters : List Chapter)
  deriving DecidableEq

/-- POST /deepscribe/api/stories/:id/verify: 400 when the body password is
falsy, 401 when the story is unprotected or the password does not verify,
otherwise the full story data with the password hash removed. -/
def verifyStoryPassword (kdf : String → String → String) (password : Option String)
    (story : Option Story) (chs : List Chapter) : VerifyResult :=
  match password with
  | none => .passwordRequired
  | some pw =>
    if pw = "" then .passwordRequired
    else
      match story with
      | none => .notFound
      | some st =>
        if !st.is_protected || !verifyPassword kdf pw st.password_hash then .invalidPassword
        else .ok (publicOf st) (chaptersAsc chs)

/-- Outcome of POST /deepscribe/api/stories/:id/password for a story that
exists. -/
inductive SetPassResult where
  | okSet
  | validationError
  deriving DecidableEq

/-- POST /deepscribe/api/stories/:id/password: a falsy or shorter-than-4
password is rejected before any persistence; otherwise the stored hash is
replaced, the protection flag set and updated_at advanced, with no
verification of any previously stored credential. -/
def setStoryPassword (kdf : String → String → String) (password : Option String)
    (salt : String) (st : Story) (now : Nat) : SetPassResult × Story :=
  match password with
  | none => (.validationError, st)
  | some pw =>
    if pw.length < 4 then (.validationError, st)
    else (.okSet,
      { st with password_hash := some (hashPassword kdf salt pw),
                is_protected := true, updated_at := now })

/-- Outcome of DELETE /deepscribe/api/stories/:id/password for a story that
exists.  crashed models the uncaught TypeError thrown by pbkdf2Sync when the
request body carries no password while a hash is stored; no row is updated
on that path either. -/
inductive RemovePassResult where
  | okRemoved
  | invalidCurrent
  | crashed
  deriving DecidableEq

/-- DELETE /deepscribe/api/stories/:id/password: the current credential must
verify; on success the hash is cleared, the flag dropped and updated_at
advanced. -/
def removeStoryPassword (kdf : String → String → String) (password : Option String)
    (st : Story) (now : Nat) : RemovePassResult × Story :=
  match verifyPasswordE kdf password st.password_hash with
  | .error _ => (.crashed, st)
  | .ok false => (.invalidCurrent, st)
  | .ok true => (.okRemoved,
      { st with password_hash := none, is_protected := false, updated_at := now })

/-- POST /deepscribe/api/stories: INSERT INTO stories (id, title, genre),
the remaining columns taking their schema defaults: no hash, flag 0,
status active, both timestamps the current time. -/
def createStory (id title genre : String) (now : Nat) : Story :=
  { id := id, title := title, genre := genre, password_hash := none,
    is_protected := false, created_at := now, updated_at := now, status := "active" }

/-- A mutation of one story and its chapters, with the request-dependent
inputs (body fields, fresh randomness and ids, collaborator replies, clock)
carried in the operation. -/
inductive Op where
  | setPass (password : Option String) (salt : String) (now : Nat)
  | removePass (password : Option String) (now : Nat)
  | continueCh (password : Option String) (prompt : String)
      (genReply sumReply : Except Unit String) (chapterId : String) (now : Nat)

/-- Apply one operation to a story row and its chapter rows. -/
def applyOp (kdf : String → String → String) (op : Op) :
    Story × List Chapter → Story × List Chapter
  | (st, chs) =>
    match op with
    | .setPass pw salt now => ((setStoryPassword kdf pw salt st now).2, chs)
    | .removePass pw now => ((removeStoryPassword kdf pw st now).2, chs)
    | .continueCh pw prompt g s cid now =>
      ((continueStoryCore kdf st pw prompt chs g s cid now).2.1,
       (continueStoryCore kdf st pw prompt chs g s cid now).2.2)

/-- Run a sequence of operations. -/
def runOps (kdf : String → String → String) (ops : List Op)
    (init : Story × List Chapter) : Story × List Chapter :=
  ops.foldl (fun acc op => applyOp kdf op acc) init

/-- Reverse numeric order, used to state that the DESC query result is
sorted. -/
def descNat (x y : Nat) : Prop := y ≤ x

instance : IsAntisymm Nat descNat := ⟨fun _ _ h1 h2 => Nat.le_antisymm h2 h1⟩

instance : IsTrans Nat descNat := ⟨fun _ _ _ h1 h2 => Nat.le_trans h2 h1⟩

/-- A concrete key-derivation function used to instantiate the abstract kdf
in witnesses: it returns the password unchanged, so it is injective in the
password for every salt. -/
def kdfFst : String → String → String := fun p _ => p

/-- A concrete unprotected story, as created by the createStory route. -/
def sampleStory : Story := createStory "s" "T" "G" 0

/-- A concrete chapter of the sample story. -/
def sampleChapter (n : Nat) : Chapter :=
  { id := Nat.repr n, story_id := "s", chapter_number := n, title := none,
    content := "body", summary := some "sum", created_at := 0 }

/-- Five chapters numbered 1 to 5. -/
def sampleChapters : List Chapter :=
  [sampleChapter 1, sampleChapter 2, sampleChapter 3, sampleChapter 4, sampleChapter 5]

/-- A concrete protected story whose stored form is the kdfFst hash of the
secret pw under the salt ab. -/
def protectedStory : Story :=
  { sampleStory with password_hash := some "ab:pw", is_protected := true }

/-- A concrete chapter with a summary. -/
def c7ch : Chapter :=
  { id := "c1", story_id := "s", chapter_number := 1, title := none,
    content := "The long original content", summary := some "All is well.", created_at := 0 }

/-- A concrete chapter without a summary. -/
def c7noSummary : Chapter :=
  { id := "c2", story_id := "s", chapter_number := 2, title := none,
    content := "raw", summary := none, created_at := 0 }

/-- The chapter response produced by continuing the sample story once. -/
def c3pay : ChapterResponse :=
  { id := "cid", story_id := "s", chapter_number := 6, content := "text", summary := "sum" }

/-- The sample story after that continuation. -/
def c3story : Story := { sampleStory with updated_at := 9 }

/-- The sample chapters after that continuation. -/
def c3chapters : List Chapter :=
  sampleChapters ++
    [{ id := "cid", story_id := "s", chapter_number := 6, title := none,
       content := "text", summary := some "sum", created_at := 9 }]

/-! Helper lemmas about the JavaScript split and the credential codec. -/

theorem jsSplitList_ne_nil (sep : Char) (l : List Char) : jsSplitList sep l ≠ [] := by
  cases l with
  | nil => simp [jsSplitList]
  | cons c rest =>
    simp only [jsSplitList]
    cases h : jsSplitList sep rest with
    | nil => simp
    | cons a t => by_cases hc : c = sep <;> simp [hc]

theorem jsSplitList_no_sep (sep : Char) : ∀ l : List Char, sep ∉ l → jsSplitList sep l = [l]
  | [], _ => rfl
  | c :: rest, h => by
    have hc : c ≠ sep := fun e => h (e ▸ List.mem_cons_self c rest)
    have hr : sep ∉ rest := fun e => h (List.mem_cons_of_mem _ e)
    show (match jsSplitList sep rest with
          | [] => [[c]]
          | h :: t => if c = sep then [] :: h :: t else (c :: h) :: t) = [c :: rest]
    rw [jsSplitList_no_sep sep rest hr]
    simp [hc]

theorem jsSplitList_append (sep : Char) : ∀ (a b : List Char), sep ∉ a →
    jsSplitList sep (a ++ sep :: b) = a :: jsSplitList sep b
  | [], b, _ => by
    show (match jsSplitList sep b with
          | [] => [[sep]]
          | h :: t => if sep = sep then [] :: h :: t else (sep :: h) :: t)
        = [] :: jsSplitList sep b
    cases hb : jsSplitList sep b with
    | nil => exact absurd hb (jsSplitList_ne_nil sep b)
    | cons x t => simp
  | c :: a', b, h => by
    have hc : c ≠ sep := fun e => h (e ▸ List.mem_cons_self c a')
    have ha : sep ∉ a' := fun e => h (List.mem_cons_of_mem _ e)
    show (match jsSplitList sep (a' ++ sep :: b) with
          | [] => [[c]]
          | h :: t => if c = sep then [] :: h :: t else (c :: h) :: t)
        = (c :: a') :: jsSplitList sep b
    rw [jsSplitList_append sep a' b ha]
    simp [hc]

theorem string_mk_data (s : String) : String.mk s.data = s := rfl

theorem verifyPasswordE_some (kdf : String → String → String) (pw : String) (hp : Option String) :
    verifyPasswordE kdf (some pw) hp = .ok (verifyPassword kdf pw hp) := by
  cases hp with
  | none => rfl
  | some h =>
    by_cases he : h = ""
    · simp [verifyPasswordE, verifyPassword, he]
    · simp only [verifyPasswordE, verifyPassword, if_neg he]
      cases (jsSplitList ':' h.data).get? 1 <;> rfl

theorem verifyPassword_hash_eq (kdf : String → String → String) (salt s p : String)
    (hsalt : ':' ∉ salt.data) (hk : ':' ∉ (kdf s salt).data) :
    verifyPassword kdf p (some (hashPassword kdf salt s)) = (kdf s salt == kdf p salt) := by
  have hdata : (hashPassword kdf salt s).data = salt.data ++ ':' :: (kdf s salt).data := by
    simp [hashPassword]
  have hne2 : hashPassword kdf salt s ≠ "" := by
    intro he
    rw [he] at hdata
    exact absurd hdata.symm (by simp)
  simp only [verifyPassword, verifyPasswordE, if_neg hne2, hdata,
    jsSplitList_append ':' salt.data _ hsalt, jsSplitList_no_sep ':' _ hk]
  simp [string_mk_data]

/-! Helper lemmas about the DESC LIMIT 3 query and the chapter sequencer. -/

theorem sortedDesc_map (chs : List Chapter) :
    List.Sorted descNat ((List.insertionSort chapterGE chs).map (fun c => c.chapter_number)) :=
  List.Pairwise.map _ (fun _ _ hab => hab) (List.sorted_insertionSort chapterGE chs)

theorem sorted_reverse_range' (N : Nat) : List.Sorted descNat (List.range' 1 N).reverse := by
  rw [List.Sorted, List.pairwise_reverse]
  exact (List.pairwise_le_range' 1 N).imp (fun h => h)

theorem insertionSort_map_eq (chs : List Chapter) (N : Nat)
    (h : (chs.map (fun c => c.chapter_number)).Perm (List.range' 1 N)) :
    (List.insertionSort chapterGE chs).map (fun c => c.chapter_number)
      = (List.range' 1 N).reverse := by
  apply List.eq_of_perm_of_sorted _ (sortedDesc_map chs) (sorted_reverse_range' N)
  exact (((List.perm_insertionSort chapterGE chs).map _).trans h).trans
    (List.reverse_perm _).symm

theorem topThree_map_eq (chs : List Chapter) (N : Nat)
    (h : (chs.map (fun c => c.chapter_number)).Perm (List.range' 1 N)) :
    (topThree chs).map (fun c => c.chapter_number) = ((List.range' 1 N).reverse).take 3 := by
  rw [topThree, List.map_take, insertionSort_map_eq chs N h]

theorem foldl_max_eq (l : List Nat) (n : Nat) (h : ∀ x ∈ l, x ≤ n) : l.foldl max n = n := by
  induction l with
  | nil => rfl
  | cons x xs ih =>
    rw [List.foldl_cons, Nat.max_eq_left (h x (List.mem_cons_self x xs))]
    exact ih (fun y hy => h y (List.mem_cons_of_mem _ hy))

theorem reverse_range'_succ (m : Nat) :
    (List.range' 1 (m + 1)).reverse = (1 + m) :: (List.range' 1 m).reverse := by
  rw [List.range'_concat]
  simp

theorem nextChapterNumber_eq (chs : List Chapter) (N : Nat)
    (h : (chs.map (fun c => c.chapter_number)).Perm (List.range' 1 N)) :
    nextChapterNumber (topThree chs) = N + 1 := by
  rw [nextChapterNumber, topThree_map_eq chs N h]
  cases N with
  | zero => rfl
  | succ m =>
    rw [reverse_range'_succ, List.take_succ_cons]
    have hmem : ∀ x ∈ ((List.range' 1 m).reverse).take 2, x ≤ 1 + m := by
      intro x hx
      have hx2 : x ∈ List.range' 1 m := (List.reverse_perm _).subset (List.take_subset 2 _ hx)
      have := List.mem_range'_1.1 hx2
      omega
    show ((List.range' 1 m).reverse.take 2).foldl max (1 + m) + 1 = m + 1 + 1
    rw [foldl_max_eq _ _ hmem]
    omega

/-! Helper lemmas about the continuation pipeline and the operation model. -/

theorem continueStoryCore_protection (kdf : String → String → String) (story : Story)
    (pw : Option String) (prompt : String) (chs : List Chapter)
    (g s : Except Unit String) (cid : String) (now : Nat) :
    ((continueStoryCore kdf story pw prompt chs g s cid now).2.1).is_protected
        = story.is_protected
    ∧ ((continueStoryCore kdf story pw prompt chs g s cid now).2.1).password_hash
        = story.password_hash := by
  simp only [continueStoryCore]
  split
  · split
    · exact ⟨rfl, rfl⟩
    · exact ⟨rfl, rfl⟩
    · split
      · exact ⟨rfl, rfl⟩
      · exact ⟨rfl, rfl⟩
  · split
    · exact ⟨rfl, rfl⟩
    · exact ⟨rfl, rfl⟩

theorem applyOp_inv (kdf : String → String → String) (op : Op) (st : Story)
    (chs : List Chapter) (hinv : storyInv st) : storyInv (applyOp kdf op (st, chs)).1 := by
  cases op with
  | setPass pw salt now =>
    simp only [applyOp, setStoryPassword]
    cases pw with
    | none => exact hinv
    | some p =>
      by_cases hl : p.length < 4
      · simpa [hl] using hinv
      · simp [hl, storyInv]
  | removePass pw now =>
    simp only [applyOp, removeStoryPassword]
    split
    · exact hinv
    · exact hinv
    · simp [storyInv]
  | continueCh pw prompt g s cid now =>
    have hp := continueStoryCore_protection kdf st pw prompt chs g s cid now
    simp only [applyOp]
    rw [storyInv, hp.1, hp.2]
    exact hinv

theorem runOps_inv (kdf : String → String → String) (ops : List Op) :
    ∀ p : Story × List Chapter, storyInv p.1 → storyInv (runOps kdf ops p).1 := by
  induction ops with
  | nil => exact fun p h => h
  | cons op rest ih =>
    intro p h
    obtain ⟨st, chs⟩ := p
    simp only [runOps, List.foldl_cons]
    exact ih (applyOp kdf op (st, chs)) (applyOp_inv kdf op st chs h)

theorem applyOp_transitions (kdf : String → String → String) (op : Op) (st : Story)
    (chs : List Chapter) :
    (st.is_protected = false → ((applyOp kdf op (st, chs)).1).is_protected = true →
      ∃ p salt now, op = Op.setPass (some p) salt now ∧ 4 ≤ p.length ∧
        ((applyOp kdf op (st, chs)).1).password_hash = some (hashPassword kdf salt p))
    ∧ (st.is_protected = true → ((applyOp kdf op (st, chs)).1).is_protected = false →
      ∃ pw now, op = Op.removePass pw now ∧
        verifyPasswordE kdf pw st.password_hash = .ok true ∧
        ((applyOp kdf op (st, chs)).1).password_hash = none) := by
  cases op with
  | setPass pw salt now =>
    constructor
    · intro hfalse htrue
      cases pw with
      | none =>
        rw [applyOp] at htrue
        rw [setStoryPassword] at htrue
        rw [hfalse] at htrue
        cases htrue
      | some p =>
        by_cases hl : p.length < 4
        · simp only [applyOp, setStoryPassword, if_pos hl] at htrue
          rw [hfalse] at htrue
          cases htrue
        · exact ⟨p, salt, now, rfl, by omega, by simp [applyOp, setStoryPassword, if_neg hl]⟩
    · intro htrue hfalse
      cases pw with
      | none =>
        rw [applyOp, setStoryPassword] at hfalse
        rw [htrue] at hfalse
        cases hfalse
      | some p =>
        by_cases hl : p.length < 4
        · simp only [applyOp, setStoryPassword, if_pos hl] at hfalse
          rw [htrue] at hfalse
          cases hfalse
        · simp only [applyOp, setStoryPassword, if_neg hl] at hfalse
          cases hfalse
  | removePass pw now =>
    constructor
    · intro hfalse htrue
      simp only [applyOp, removeStoryPassword] at htrue
      split at htrue
      · rw [hfalse] at htrue; cases htrue
      · rw [hfalse] at htrue; cases htrue
      · cases htrue
    · intro htrue hfalse
      simp only [applyOp, removeStoryPassword] at hfalse ⊢
      split at hfalse
      · rw [htrue] at hfalse; cases hfalse
      · rw [htrue] at hfalse; cases hfalse
      · rename_i hv
        exact ⟨pw, now, rfl, hv, rfl⟩
  | continueCh pw prompt g s cid now =>
    have hp := continueStoryCore_protection kdf st pw prompt chs g s cid now
    constructor
    · intro hfalse htrue
      rw [applyOp] at htrue
      rw [hp.1, hfalse] at htrue
      cases htrue
    · intro htrue hfalse
      rw [applyOp] at hfalse
      rw [hp.1, htrue] at hfalse
      cases hfalse

/-! The claims. -/

/-- C1, counterexample.  For a protected story, continueStory with no secret
supplied is not denied with a distinct AuthRequired kind: the password
verification throws on the undefined password and the route's catch-all
answers with the same generic 500 failure used when the generation
collaborator errors (generationFailed), while a wrong secret is denied 401
authInvalid.  At this concrete input the collaborator replies are healthy,
yet the no-secret call still lands on generationFailed, so the denial is not
an AuthRequired kind distinct from the other kinds. -/
theorem auth_required_c1_counterexample :
    continueStoryCore kdfFst protectedStory none "go" [] (.ok "text") (.ok "sum") "c" 3
      = (ContinueResult.generationFailed, protectedStory, [])
    ∧ (continueStoryCore kdfFst protectedStory (some "bad") "go" []
        (.ok "text") (.ok "sum") "c" 3).1 = ContinueResult.authInvalid
    ∧ ContinueResult.generationFailed ≠ ContinueResult.authInvalid :=
  ⟨by decide, by decide, by decide⟩

/-- C1, amended.  For every protected story with a stored (non-empty) hash:
a missing secret makes the verification throw, so continueStory answers with
the generic generationFailed 500 and leaves the state unchanged, while a
wrong secret is denied authInvalid (401), also leaving the state unchanged;
continueStory never produces an AuthRequired response — that kind exists
only in the getStory route. -/
theorem auth_denials_c1_amended (kdf : String → String → String) (story : Story)
    (prompt : String) (chs : List Chapter) (genReply sumReply : Except Unit String)
    (cid : String) (now : Nat) (hh : String) (s : String)
    (hprot : story.is_protected = true) (hhash : story.password_hash = some hh)
    (hne : hh ≠ "") :
    continueStoryCore kdf story none prompt chs genReply sumReply cid now
      = (.generationFailed, story, chs)
    ∧ (verifyPassword kdf s (some hh) = false →
        continueStoryCore kdf story (some s) prompt chs genReply sumReply cid now
          = (.authInvalid, story, chs)) := by
  constructor
  · have hv : verifyPasswordE kdf none story.password_hash = .error () := by
      rw [hhash]
      simp [verifyPasswordE, hne]
    simp only [continueStoryCore, hprot, if_true, hv]
  · intro hs
    have hv : verifyPasswordE kdf (some s) story.password_hash = .ok false := by
      rw [hhash, verifyPasswordE_some, hs]
    simp only [continueStoryCore, hprot, if_true, hv]

/-- C1, amended, witness at a concrete protected story. -/
theorem auth_denials_c1_amended_witness :
    continueStoryCore kdfFst protectedStory none "go" [] (.ok "t") (.ok "u") "c" 3
      = (ContinueResult.generationFailed, protectedStory, [])
    ∧ continueStoryCore kdfFst protectedStory (some "bad") "go" [] (.ok "t") (.ok "u") "c" 3
      = (ContinueResult.authInvalid, protectedStory, []) := by
  have h := auth_denials_c1_amended kdfFst protectedStory "go" [] (.ok "t") (.ok "u")
    "c" 3 "ab:pw" "bad" rfl rfl (by decide)
  exact ⟨h.1, h.2 (by decide)⟩

/-- C2.  For every story satisfying the protection invariant: no getStory
response carries a stored hash in its password_hash field; when a hash is
present the denial is exactly the authRequired metadata object (id, title,
genre, protection flag, timestamps — by construction without hash, chapters
or content, and independent of the chapter table); a successful verify
response is exactly the hash-stripped projection of the story; and every
item of the listing response is the hash-free projection of a stored
story. -/
theorem hash_confidential_c2 (kdf : String → String → String) (secret pw : Option String)
    (story : Story) (chs : List Chapter) (stories : List Story)
    (hinv : storyInv story) :
    (getStory secret (some story) chs).hashField = none
    ∧ (∀ h : String, story.password_hash = some h →
        getStory secret (some story) chs = .authRequired (metaOf story))
    ∧ (∀ (p : StoryPublic) (out : List Chapter),
        verifyStoryPassword kdf pw (some story) chs = .ok p out → p = publicOf story)
    ∧ (∀ item ∈ getStories stories, ∃ s, s ∈ stories ∧ item = publicOf s) := by
  refine ⟨?_, ?_, ?_, ?_⟩
  · cases hb : story.is_protected
    · have hn : story.password_hash = none := by
        cases hh : story.password_hash
        · rfl
        · have h2 := hinv.mpr (by rw [hh]; rfl)
          rw [h2] at hb
          cases hb
      simp [getStory, hb, GetStoryResult.hashField, hn]
    · simp [getStory, hb, GetStoryResult.hashField]
  · intro h hh
    have hp : story.is_protected = true := hinv.mpr (by rw [hh]; rfl)
    simp [getStory, hp]
  · intro p out he
    simp only [verifyStoryPassword] at he
    split at he
    · cases he
    · split at he
      · cases he
      · split at he
        · cases he
        · simp only [VerifyResult.ok.injEq] at he
          exact he.1.symm
  · intro item hit
    simp only [getStories] at hit
    obtain ⟨s, hs, rfl⟩ := List.mem_map.1 hit
    exact ⟨s, (List.perm_insertionSort storyGE stories).subset hs, rfl⟩

/-- C2, witness: a concrete protected story is denied with exactly its
metadata and no response hash field. -/
theorem hash_confidential_c2_witness :
    storyInv protectedStory
    ∧ (getStory none (some protectedStory) []).hashField = none
    ∧ getStory none (some protectedStory) []
        = GetStoryResult.authRequired (metaOf protectedStory) := by
  have h := hash_confidential_c2 kdfFst none none protectedStory [] [] (by decide)
  exact ⟨by decide, h.1, h.2.1 "ab:pw" (by decide)⟩

/-- C3.  For a story whose chapters are numbered 1..N (N = 0 allowed), a
successful continueStory persists and returns a chapter numbered N + 1,
even though only the three highest-numbered chapters are loaded to compute
it. -/
theorem chapter_sequencer_c3 (kdf : String → String → String) (story : Story)
    (password : Option String) (prompt : String) (chs : List Chapter)
    (genReply sumReply : Except Unit String) (cid : String) (now : Nat) (N : Nat)
    (p : ChapterResponse) (st' : Story) (chs' : List Chapter)
    (h : (chs.map (fun c => c.chapter_number)).Perm (List.range' 1 N))
    (heq : continueStoryCore kdf story password prompt chs genReply sumReply cid now
      = (.ok p, st', chs')) :
    p.chapter_number = N + 1
    ∧ chs'.map (fun c => c.chapter_number)
        = chs.map (fun c => c.chapter_number) ++ [N + 1] := by
  have hnum := nextChapterNumber_eq chs N h
  simp only [continueStoryCore] at heq
  split at heq
  · split at heq
    · simp at heq
    · simp at heq
    · split at heq
      · simp at heq
      · simp only [Prod.mk.injEq, ContinueResult.ok.injEq] at heq
        obtain ⟨hp, _, hc⟩ := heq
        subst hp
        subst hc
        exact ⟨hnum, by simp [hnum]⟩
  · split at heq
    · simp at heq
    · simp only [Prod.mk.injEq, ContinueResult.ok.injEq] at heq
      obtain ⟨hp, _, hc⟩ := heq
      subst hp
      subst hc
      exact ⟨hnum, by simp [hnum]⟩

/-- C3, witness: continuing the five-chapter sample story yields chapter
number 6. -/
theorem chapter_sequencer_c3_witness :
    (sampleChapters.map (fun c => c.chapter_number)).Perm (List.range' 1 5)
    ∧ c3pay.chapter_number = 5 + 1
    ∧ c3chapters.map (fun c => c.chapter_number)
        = sampleChapters.map (fun c => c.chapter_number) ++ [5 + 1] := by
  have h := chapter_sequencer_c3 kdfFst sampleStory none "go" sampleChapters
    (.ok "text") (.ok "sum") "cid" 9 5 c3pay c3story c3chapters (by decide) (by decide)
  exact ⟨by decide, h.1, h.2⟩

/-- C4.  For every unprotected story (no credential hash, under the
protection invariant), getStory returns the full story row together with its
chapters in ascending chapter order, whatever candidate secret (if any) the
caller supplies — the route reads no secret at all. -/
theorem unprotected_access_c4 (secret : Option String) (story : Story) (chs : List Chapter)
    (hinv : storyInv story) (hnone : story.password_hash = none) :
    getStory secret (some story) chs = .full story (chaptersAsc chs) := by
  have hp : story.is_protected = false := by
    cases hb : story.is_protected
    · rfl
    · have h2 := hinv.mp hb
      rw [hnone] at h2
      simp at h2
  simp [getStory, hp]

/-- C4, witness: the sample unprotected story is served in full both with
and without a candidate secret. -/
theorem unprotected_access_c4_witness :
    getStory none (some sampleStory) [] = GetStoryResult.full sampleStory (chaptersAsc [])
    ∧ getStory (some "x") (some sampleStory) []
        = GetStoryResult.full sampleStory (chaptersAsc []) :=
  ⟨unprotected_access_c4 none sampleStory [] (by decide) rfl,
   unprotected_access_c4 (some "x") sampleStory [] (by decide) rfl⟩

/-- C5.  When the content-generation collaborator fails, continueStory
leaves the story row (its updated_at timestamp included) and the chapter
table unchanged, and — whenever the access gate passes (story unprotected or
secret verified) — answers generationFailed. -/
theorem generation_failure_c5 (kdf : String → String → String) (story : Story)
    (password : Option String) (prompt : String) (chs : List Chapter)
    (sumReply : Except Unit String) (cid : String) (now : Nat) (e : Unit) :
    (continueStoryCore kdf story password prompt chs (.error e) sumReply cid now).2
      = (story, chs)
    ∧ ((story.is_protected = false
        ∨ verifyPasswordE kdf password story.password_hash = .ok true) →
        (continueStoryCore kdf story password prompt chs (.error e) sumReply cid now).1
          = .generationFailed) := by
  constructor
  · simp only [continueStoryCore]
    split
    · split <;> rfl
    · rfl
  · intro hauth
    simp only [continueStoryCore]
    split
    · rename_i hp
      cases hauth with
      | inl hfalse => rw [hp] at hfalse; cases hfalse
      | inr hv => rw [hv]
    · rfl

/-- C5, witness: a collaborator error on the sample story persists nothing
and returns generationFailed. -/
theorem generation_failure_c5_witness :
    (continueStoryCore kdfFst sampleStory none "go" [] (.error ()) (.ok "s") "c" 3).2
      = (sampleStory, ([] : List Chapter))
    ∧ (continueStoryCore kdfFst sampleStory none "go" [] (.error ()) (.ok "s") "c" 3).1
      = ContinueResult.generationFailed := by
  have h := generation_failure_c5 kdfFst sampleStory none "go" [] (.ok "s") "c" 3 ()
  exact ⟨h.1, h.2 (Or.inl rfl)⟩

/-- C6.  For a story whose chapters are numbered 1..N, the selected context
window, read in the chronological order in which it is rendered, consists of
exactly the min(3, N) highest-numbered chapters in ascending order (the drop
of 1..N at N - 3); every selected chapter comes from the story's history;
with no history the assembled block is the header alone, and otherwise it is
the header, the marker line, and the selected chapters' lines in that
chronological order. -/
theorem context_window_c6 (story : Story) (chs : List Chapter) (N : Nat)
    (h : (chs.map (fun c => c.chapter_number)).Perm (List.range' 1 N)) :
    (topThree chs).reverse.map (fun c => c.chapter_number)
        = (List.range' 1 N).drop (N - 3)
    ∧ (topThree chs).length = min 3 N
    ∧ (∀ c ∈ topThree chs, c ∈ chs)
    ∧ (chs = [] → buildContext story (topThree chs) = contextHeader story)
    ∧ (chs ≠ [] → buildContext story (topThree chs)
        = contextHeader story ++ ("Recent chapters:\n"
            ++ String.join ((topThree chs).reverse.map contextLine))) := by
  have hsel : (topThree chs).reverse.map (fun c => c.chapter_number)
      = (List.range' 1 N).drop (N - 3) := by
    rw [List.map_reverse, topThree_map_eq chs N h, List.take_reverse,
      List.reverse_reverse, List.length_range']
  have hlen : (topThree chs).length = min 3 N := by
    have h2 := congrArg List.length hsel
    simp only [List.length_map, List.length_reverse, List.length_drop,
      List.length_range'] at h2
    omega
  refine ⟨hsel, hlen, ?_, ?_, ?_⟩
  · intro c hc
    exact (List.perm_insertionSort chapterGE chs).subset (List.take_subset 3 _ hc)
  · intro he
    subst he
    simp [buildContext, topThree, List.insertionSort]
  · intro hne
    have hN : N ≠ 0 := by
      intro h0
      subst h0
      exact hne (List.map_eq_nil_iff.1 h.eq_nil)
    have ht : (topThree chs).isEmpty = false := by
      cases htt : topThree chs with
      | nil =>
        rw [htt] at hlen
        simp at hlen
        omega
      | cons a l => rfl
    simp [buildContext, ht]

/-- C6, witness: for the five-chapter sample story the window is chapters
3, 4, 5 in that order. -/
theorem context_window_c6_witness :
    (sampleChapters.map (fun c => c.chapter_number)).Perm (List.range' 1 5)
    ∧ (topThree sampleChapters).reverse.map (fun c => c.chapter_number)
        = (List.range' 1 5).drop (5 - 3)
    ∧ (topThree sampleChapters).length = min 3 5
    ∧ buildContext sampleStory (topThree sampleChapters)
        = contextHeader sampleStory ++ ("Recent chapters:\n"
            ++ String.join ((topThree sampleChapters).reverse.map contextLine)) := by
  have h := context_window_c6 sampleStory sampleChapters 5 (by decide)
  exact ⟨by decide, h.1, h.2.1, h.2.2.2.2 (by decide)⟩

/-- C7, counterexample.  The code's rendering of a chapter whose summary is
present differs from the spec's wording: the ellipsis marker is appended
after the summary as well, not only after truncated content. -/
theorem context_line_c7_counterexample :
    contextLine c7ch ≠ claimedContextLine c7ch
    ∧ contextLine c7ch = "Chapter 1: All is well....\n\n"
    ∧ claimedContextLine c7ch = "Chapter 1: All is well.\n\n" :=
  ⟨by decide, by decide, by decide⟩

/-- C7, amended.  Each selected chapter renders as the chapter number plus
its summary when the summary is present and non-empty, else the first 200
characters of its content, followed in either case by the ellipsis
marker. -/
theorem context_line_c7_amended (c : Chapter) (s : String) :
    (c.summary = some s → s ≠ "" →
      contextLine c = "Chapter " ++ Nat.repr c.chapter_number ++ ": " ++ s ++ "...\n\n")
    ∧ ((c.summary = none ∨ c.summary = some "") →
      contextLine c
        = "Chapter " ++ Nat.repr c.chapter_number ++ ": "
            ++ substringTo c.content 200 ++ "...\n\n") := by
  constructor
  · intro hs hne
    simp [contextLine, hs, hne]
  · intro hs
    cases hs with
    | inl hnone => simp [contextLine, hnone]
    | inr hempty => simp [contextLine, hempty]

/-- C7, amended, witness on a chapter with and a chapter without a
summary. -/
theorem context_line_c7_amended_witness :
    contextLine c7ch = "Chapter 1: All is well....\n\n"
    ∧ contextLine c7noSummary = "Chapter 2: raw...\n\n" := by
  have h1 := (context_line_c7_amended c7ch "All is well.").1 rfl (by decide)
  have h2 := (context_line_c7_amended c7noSummary "").2 (Or.inl rfl)
  exact ⟨h1.trans (by decide), h2.trans (by decide)⟩

/-- C8.  For a colon-free salt and derived key: hashing a non-empty secret
then verifying the same secret returns true; verifying a different secret
returns false provided the key derivation does not collide at that salt;
and verifying any secret against an absent or colon-free (malformed) stored
form returns false without raising an error. -/
theorem credential_codec_c8 (kdf : String → String → String) (salt s t : String)
    (hsalt : ':' ∉ salt.data) (hk : ':' ∉ (kdf s salt).data) (hs : s ≠ "") :
    verifyPassword kdf s (some (hashPassword kdf salt s)) = true
    ∧ (t ≠ s → (∀ a b : String, kdf a salt = kdf b salt → a = b) →
        verifyPassword kdf t (some (hashPassword kdf salt s)) = false)
    ∧ (∀ p : String, verifyPasswordE kdf (some p) none = .ok false)
    ∧ (∀ p m : String, ':' ∉ m.data →
        verifyPasswordE kdf (some p) (some m) = .ok false) := by
  refine ⟨?_, ?_, fun p => rfl, ?_⟩
  · rw [verifyPassword_hash_eq kdf salt s s hsalt hk]
    simp
  · intro hts hinj
    rw [verifyPassword_hash_eq kdf salt s t hsalt hk]
    exact beq_eq_false_iff_ne.mpr (fun e => hts (hinj t s e.symm))
  · intro p m hm
    by_cases he : m = ""
    · simp [verifyPasswordE, he]
    · simp only [verifyPasswordE, if_neg he, jsSplitList_no_sep ':' m.data hm]
      rfl

/-- C8, witness with the concrete injective key derivation kdfFst. -/
theorem credential_codec_c8_witness :
    verifyPassword kdfFst "pw" (some (hashPassword kdfFst "ab" "pw")) = true
    ∧ verifyPassword kdfFst "qw" (some (hashPassword kdfFst "ab" "pw")) = false
    ∧ verifyPasswordE kdfFst (some "pw") none = .ok false
    ∧ verifyPasswordE kdfFst (some "pw") (some "nocolon") = .ok false := by
  have h := credential_codec_c8 kdfFst "ab" "pw" "qw" (by decide) (by decide) (by decide)
  exact ⟨h.1, h.2.1 (by decide) (fun a b e => e), h.2.2.1 "pw",
    h.2.2.2 "pw" "nocolon" (by decide)⟩

/-- C9.  Every state reachable from createStory through setPassword,
removePassword and continueStory satisfies the protection invariant (flag
set iff hash stored); moreover a step can turn an unprotected story
protected only as a successful setPassword that stores a fresh credential
hash, and can turn a protected story unprotected only as a removePassword
whose current secret verifies, clearing the hash. -/
theorem protection_invariant_c9 (kdf : String → String → String) (id title genre : String)
    (t0 : Nat) (ops : List Op) :
    storyInv (runOps kdf ops (createStory id title genre t0, [])).1
    ∧ (∀ (op : Op) (st : Story) (chs : List Chapter), storyInv st →
        ((st.is_protected = false →
            ((applyOp kdf op (st, chs)).1).is_protected = true →
            ∃ p salt now, op = Op.setPass (some p) salt now ∧ 4 ≤ p.length ∧
              ((applyOp kdf op (st, chs)).1).password_hash
                = some (hashPassword kdf salt p))
         ∧ (st.is_protected = true →
            ((applyOp kdf op (st, chs)).1).is_protected = false →
            ∃ pw now, op = Op.removePass pw now ∧
              verifyPasswordE kdf pw st.password_hash = .ok true ∧
              ((applyOp kdf op (st, chs)).1).password_hash = none))) :=
  ⟨runOps_inv kdf ops _ (by simp [storyInv, createStory]),
   fun op st chs _ => applyOp_transitions kdf op st chs⟩

/-- C9, witness: a concrete set-then-remove run keeps the invariant, and the
protecting step stores exactly the fresh hash. -/
theorem protection_invariant_c9_witness :
    storyInv (runOps kdfFst
      [Op.setPass (some "abcd") "ab" 1, Op.removePass (some "abcd") 2]
      (createStory "i" "T" "G" 0, [])).1
    ∧ (applyOp kdfFst (Op.setPass (some "abcd") "ab" 1)
        (createStory "i" "T" "G" 0, [])).1.password_hash
          = some (hashPassword kdfFst "ab" "abcd") := by
  refine ⟨(protection_invariant_c9 kdfFst "i" "T" "G" 0 _).1, ?_⟩
  have h := ((protection_invariant_c9 kdfFst "i" "T" "G" 0 []).2
      (Op.setPass (some "abcd") "ab" 1) (createStory "i" "T" "G" 0) []
      (by simp [storyInv, createStory])).1 rfl rfl
  obtain ⟨p, salt, now, heq, hlen, hhash⟩ := h
  injection heq with h1 h2 h3
  have hp : p = "abcd" := by
    injection h1 with hx
    exact hx.symm
  subst hp
  subst h2
  exact hhash

/-- C10.  For every story that is already protected, setPassword with any
secret of length at least 4 succeeds and replaces the stored credential
hash (and advances updated_at), with no verification of the current secret:
the route never consults the previously stored hash. -/
theorem password_reset_c10 (kdf : String → String → String) (st : Story) (p salt : String)
    (now : Nat) (hprot : st.is_protected = true) (hlen : 4 ≤ p.length) :
    setStoryPassword kdf (some p) salt st now
      = (.okSet, { st with
                     password_hash := some (hashPassword kdf salt p)
                     is_protected := true
                     updated_at := now }) := by
  simp only [setStoryPassword]
  rw [if_neg (by omega)]

/-- C10, witness: overwriting the protected sample story's credential. -/
theorem password_reset_c10_witness :
    setStoryPassword kdfFst (some "newp") "cd" protectedStory 7
      = (SetPassResult.okSet, { protectedStory with
          password_hash := some (hashPassword kdfFst "cd" "newp")
          is_protected := true
          updated_at := 7 }) :=
  password_reset_c10 kdfFst protectedStory "newp" "cd" 7 rfl (by decide)

end DeepScribe
